import Mathlib

/-!
Verification of the battle decision engine in `tools/battle_helper.py`.

The Python source is shallowly embedded: pure code becomes Lean functions,
Python numbers become `ℤ`/`ℚ` (Python ints are unbounded; the float
arithmetic of the damage formula is modelled exactly over `ℚ`), and code
that can raise a Python exception returns `Except String α`, the error
string naming the exception class.  Environment-dependent values (Python's
seeded string `hash`, and `hash(str(self.battle_state))` which depends on
the battle-state object's memory address) are passed in explicitly through
a `PyEnv` record.
-/

namespace BattleHelper

/-- `class PokemonType(Enum)` — the 15 Generation-1 elemental types
(battle_helper.py lines 22-38). -/
inductive PokemonType where
  | NORMAL | FIRE | WATER | ELECTRIC | GRASS | ICE | FIGHTING | POISON
  | GROUND | FLYING | PSYCHIC | BUG | ROCK | GHOST | DRAGON
deriving DecidableEq, Repr

/-- `class TypeEffectiveness(Enum)` — the four effectiveness levels
(battle_helper.py lines 14-19). -/
inductive TypeEffectiveness where
  | IMMUNE | NOT_VERY_EFFECTIVE | NEUTRAL | SUPER_EFFECTIVE
deriving DecidableEq, Repr

/-- The `.value` of each `TypeEffectiveness` member: 0, 0.5, 1, 2
(battle_helper.py lines 16-19). -/
def TypeEffectiveness.value : TypeEffectiveness → ℚ
  | .IMMUNE => 0
  | .NOT_VERY_EFFECTIVE => 1/2
  | .NEUTRAL => 1
  | .SUPER_EFFECTIVE => 2

open PokemonType TypeEffectiveness in
/-- `TypeEffectivenessMatrix.get_effectiveness` — the matrix built by
`_build_type_matrix` (battle_helper.py lines 47-168): every pair defaults to
`NEUTRAL`, with the explicitly entered overrides below. -/
def get_effectiveness : PokemonType → PokemonType → TypeEffectiveness
  | NORMAL, ROCK => NOT_VERY_EFFECTIVE
  | NORMAL, GHOST => IMMUNE
  | FIRE, FIRE => NOT_VERY_EFFECTIVE
  | FIRE, WATER => NOT_VERY_EFFECTIVE
  | FIRE, GRASS => SUPER_EFFECTIVE
  | FIRE, ICE => SUPER_EFFECTIVE
  | FIRE, BUG => SUPER_EFFECTIVE
  | FIRE, ROCK => NOT_VERY_EFFECTIVE
  | FIRE, DRAGON => NOT_VERY_EFFECTIVE
  | WATER, FIRE => SUPER_EFFECTIVE
  | WATER, WATER => NOT_VERY_EFFECTIVE
  | WATER, GRASS => NOT_VERY_EFFECTIVE
  | WATER, GROUND => SUPER_EFFECTIVE
  | WATER, ROCK => SUPER_EFFECTIVE
  | WATER, DRAGON => NOT_VERY_EFFECTIVE
  | ELECTRIC, WATER => SUPER_EFFECTIVE
  | ELECTRIC, ELECTRIC => NOT_VERY_EFFECTIVE
  | ELECTRIC, GRASS => NOT_VERY_EFFECTIVE
  | ELECTRIC, GROUND => IMMUNE
  | ELECTRIC, FLYING => SUPER_EFFECTIVE
  | ELECTRIC, DRAGON => NOT_VERY_EFFECTIVE
  | GRASS, FIRE => NOT_VERY_EFFECTIVE
  | GRASS, WATER => SUPER_EFFECTIVE
  | GRASS, GRASS => NOT_VERY_EFFECTIVE
  | GRASS, POISON => NOT_VERY_EFFECTIVE
  | GRASS, GROUND => SUPER_EFFECTIVE
  | GRASS, FLYING => NOT_VERY_EFFECTIVE
  | GRASS, BUG => NOT_VERY_EFFECTIVE
  | GRASS, ROCK => SUPER_EFFECTIVE
  | GRASS, DRAGON => NOT_VERY_EFFECTIVE
  | ICE, FIRE => NOT_VERY_EFFECTIVE
  | ICE, WATER => NOT_VERY_EFFECTIVE
  | ICE, GRASS => SUPER_EFFECTIVE
  | ICE, ICE => NOT_VERY_EFFECTIVE
  | ICE, GROUND => SUPER_EFFECTIVE
  | ICE, FLYING => SUPER_EFFECTIVE
  | ICE, DRAGON => SUPER_EFFECTIVE
  | FIGHTING, NORMAL => SUPER_EFFECTIVE
  | FIGHTING, ICE => SUPER_EFFECTIVE
  | FIGHTING, POISON => NOT_VERY_EFFECTIVE
  | FIGHTING, FLYING => NOT_VERY_EFFECTIVE
  | FIGHTING, PSYCHIC => NOT_VERY_EFFECTIVE
  | FIGHTING, BUG => NOT_VERY_EFFECTIVE
  | FIGHTING, ROCK => SUPER_EFFECTIVE
  | FIGHTING, GHOST => IMMUNE
  | POISON, GRASS => SUPER_EFFECTIVE
  | POISON, POISON => NOT_VERY_EFFECTIVE
  | POISON, GROUND => NOT_VERY_EFFECTIVE
  | POISON, ROCK => NOT_VERY_EFFECTIVE
  | POISON, GHOST => NOT_VERY_EFFECTIVE
  | GROUND, FIRE => SUPER_EFFECTIVE
  | GROUND, ELECTRIC => IMMUNE
  | GROUND, GRASS => NOT_VERY_EFFECTIVE
  | GROUND, POISON => SUPER_EFFECTIVE
  | GROUND, FLYING => IMMUNE
  | GROUND, BUG => NOT_VERY_EFFECTIVE
  | GROUND, ROCK => SUPER_EFFECTIVE
  | FLYING, ELECTRIC => NOT_VERY_EFFECTIVE
  | FLYING, GRASS => SUPER_EFFECTIVE
  | FLYING, FIGHTING => SUPER_EFFECTIVE
  | FLYING, BUG => SUPER_EFFECTIVE
  | FLYING, ROCK => NOT_VERY_EFFECTIVE
  | PSYCHIC, FIGHTING => SUPER_EFFECTIVE
  | PSYCHIC, POISON => SUPER_EFFECTIVE
  | PSYCHIC, PSYCHIC => NOT_VERY_EFFECTIVE
  | BUG, FIRE => NOT_VERY_EFFECTIVE
  | BUG, GRASS => SUPER_EFFECTIVE
  | BUG, FIGHTING => NOT_VERY_EFFECTIVE
  | BUG, POISON => NOT_VERY_EFFECTIVE
  | BUG, FLYING => NOT_VERY_EFFECTIVE
  | BUG, PSYCHIC => SUPER_EFFECTIVE
  | BUG, GHOST => NOT_VERY_EFFECTIVE
  | ROCK, FIRE => SUPER_EFFECTIVE
  | ROCK, ICE => SUPER_EFFECTIVE
  | ROCK, FIGHTING => NOT_VERY_EFFECTIVE
  | ROCK, GROUND => NOT_VERY_EFFECTIVE
  | ROCK, FLYING => SUPER_EFFECTIVE
  | ROCK, BUG => SUPER_EFFECTIVE
  | GHOST, NORMAL => IMMUNE
  | GHOST, PSYCHIC => IMMUNE
  | GHOST, GHOST => SUPER_EFFECTIVE
  | DRAGON, DRAGON => SUPER_EFFECTIVE
  | _, _ => NEUTRAL

/-- `TypeEffectivenessMatrix.get_effectiveness_dual_type`
(battle_helper.py lines 170-180).  On a one-element list it returns the
single lookup's float value; otherwise it indexes positions 0 and 1 and
multiplies, so an empty list raises `IndexError` at `defense_types[0]`. -/
def get_effectiveness_dual_type (attack_type : PokemonType)
    (defense_types : List PokemonType) : Except String ℚ :=
  match defense_types with
  | [d] => .ok (get_effectiveness attack_type d).value
  | d1 :: d2 :: _ =>
      .ok ((get_effectiveness attack_type d1).value *
           (get_effectiveness attack_type d2).value)
  | [] => .error "IndexError"

/-- `class Move` (battle_helper.py lines 183-206).  The constructor sets
`max_pp = pp`; both fields are kept because they can diverge later. -/
structure Move where
  name : String
  type : PokemonType
  category : String
  power : ℤ
  pp : ℤ
  max_pp : ℤ
  accuracy : ℤ
deriving DecidableEq, Repr

def Move.is_physical (m : Move) : Bool := m.category == "Physical"

def Move.is_special (m : Move) : Bool := m.category == "Special"

def Move.is_status (m : Move) : Bool := m.category == "Status"

def Move.has_pp (m : Move) : Bool := m.pp > 0

/-- `class Pokemon` (battle_helper.py lines 209-232).  The `ref` field
models Python object identity: the class defines no `__eq__`, so the
source's `party_member == current_pokemon` compares object identity, and
distinct objects are modelled as carrying distinct `ref` values. -/
structure Pokemon where
  ref : ℕ
  species : String
  level : ℤ
  types : List PokemonType
  hp : ℤ
  max_hp : ℤ
  attack : ℤ
  defense : ℤ
  special : ℤ
  speed : ℤ
  moves : List Move
  status_condition : Option String
deriving DecidableEq, Repr

def Pokemon.is_fainted (p : Pokemon) : Bool := p.hp ≤ 0

/-- `Pokemon.get_available_moves` — moves with remaining PP
(battle_helper.py lines 230-232). -/
def Pokemon.get_available_moves (p : Pokemon) : List Move :=
  p.moves.filter (fun m => m.has_pp)

/-- `class BattleState` (battle_helper.py lines 235-251).  Items are the
strings looked up by `should_use_item` (`"Potion" in available_items`). -/
structure BattleState where
  player_pokemon : Option Pokemon
  opponent_pokemon : Option Pokemon
  battle_phase : String
  player_items : List String
  party_pokemon : List Pokemon
  can_switch : Bool
  can_use_items : Bool
deriving DecidableEq, Repr

/-- The ambient Python execution environment that `calculate_damage` reads
beyond its three arguments.  `strHash` models the process-seeded builtin
`hash` on strings (used for the 85-100 percent damage roll, line 299);
`stateHash` models `hash(str(self.battle_state))` (line 320), which
depends on the `BattleState` object's memory address via the default
`__str__`, not on the method's arguments. -/
structure PyEnv where
  strHash : String → ℤ
  stateHash : ℤ

/-- `BattleHelper._check_critical_hit` (battle_helper.py lines 317-320):
`(hash(str(self.battle_state)) % 16) == 0`.  Python's `%` on a positive
modulus agrees with `Int.emod`. -/
def check_critical_hit (env : PyEnv) : Bool := env.stateHash % 16 == 0

/-- `BattleHelper._calculate_stab` (battle_helper.py lines 313-315). -/
def calculate_stab (attacker : Pokemon) (move : Move) : ℚ :=
  if move.type ∈ attacker.types then 3/2 else 1

/-- Python's `int()` applied to a float: truncation toward zero. -/
def pyint (q : ℚ) : ℤ := if 0 ≤ q then ⌊q⌋ else ⌈q⌉

/-- `BattleHelper.calculate_damage` (battle_helper.py lines 261-311),
with the float arithmetic carried out exactly over `ℚ`.  Statements and
possible exceptions are kept in source order: the PP gate, the status-move
gate, the dual-type lookup (`IndexError` on a typeless defender), then the
base-damage line, whose `attack_stat / defense_stat` raises
`ZeroDivisionError` when the chosen defense stat is zero. -/
def calculate_damage (env : PyEnv) (attacker defender : Pokemon)
    (move : Move) : Except String ℤ :=
  if ¬ move.has_pp then .ok 0
  else
    let level_factor : ℚ := 2 * (attacker.level : ℚ) / 5 + 2
    let power : ℚ := (move.power : ℚ)
    let stab := calculate_stab attacker move
    match (if move.is_physical then some ((attacker.attack : ℚ), (defender.defense : ℚ))
           else if move.is_special then some ((attacker.special : ℚ), (defender.special : ℚ))
           else none) with
    | none => .ok 0
    | some (attack_stat, defense_stat) => do
      let effectiveness ← get_effectiveness_dual_type move.type defender.types
      let critical : ℚ := if check_critical_hit env then 2 else 1
      let random_factor : ℚ :=
        85/100 + (15/100) *
          (((env.strHash (attacker.species ++ defender.species ++ move.name)) % 1000 : ℤ) / 1000 : ℚ)
      if defense_stat = 0 then .error "ZeroDivisionError"
      else
        let base_damage := level_factor * power * attack_stat / defense_stat / 50 + 2
        let final_damage := pyint (base_damage * stab * effectiveness * critical * random_factor)
        .ok (if effectiveness > 0 ∧ final_damage < 1 then 1 else final_damage)

/-- `BattleHelper._evaluate_move` (battle_helper.py lines 364-410).
Lines 366-373 only touch `score`/`reasoning` locally; line 376 calls
`get_effectiveness_dual_type`, which returns a Python `float`, and line
377 then evaluates `float(effectiveness.value)` — a float has no `.value`
attribute, so the call raises `AttributeError` unconditionally and lines
378-410 are unreachable. -/
def evaluate_move (attacker defender : Pokemon) (move : Move) :
    Except String (ℚ × List String) := do
  let _eff ← get_effectiveness_dual_type move.type defender.types
  .error "AttributeError"

/-- The dictionary returned by `suggest_move` (battle_helper.py lines
357-362).  In the no-moves branch the source stores the enum
`TypeEffectiveness.NEUTRAL` in the `effectiveness` slot; it is modelled by
the enum's value 1. -/
structure SuggestResult where
  move : Option Move
  reason : String
  damage : ℤ
  effectiveness : ℚ
deriving DecidableEq, Repr

/-- `BattleHelper.suggest_move` (battle_helper.py lines 322-362):
derive the candidate list from the attacker when the argument is `None`,
return the empty-result dictionary on an empty list, otherwise scan for
the strictly best-scoring move (initial best score −1). -/
def suggest_move (env : PyEnv) (attacker defender : Pokemon)
    (available_moves : Option (List Move)) : Except String SuggestResult :=
  let avail := match available_moves with
    | none => attacker.get_available_moves
    | some l => l
  if avail.isEmpty then
    .ok ⟨none, "No moves available", 0, 1⟩
  else do
    let best ← avail.foldlM
      (fun (acc : Option Move × ℚ × List String) m => do
        let sr ← evaluate_move attacker defender m
        if sr.1 > acc.2.1 then pure (some m, sr.1, sr.2) else pure acc)
      (none, -1, [])
    let dmg ← match best.1 with
      | some bm => calculate_damage env attacker defender bm
      | none => pure 0
    let eff ← match best.1 with
      | some bm => get_effectiveness_dual_type bm.type defender.types
      | none => pure (1 : ℚ)
    .ok ⟨best.1, String.intercalate "; " best.2.2, dmg, eff⟩

/-- One iteration of the resistance loop (battle_helper.py lines 446-452):
skipped when the opposing move has no power, otherwise the dual-type
lookup followed by the raising `.value` access. -/
def resistance_fold_step (party_member : Pokemon) (acc : ℚ) (opp_move : Move) :
    Except String ℚ :=
  if opp_move.power > 0 then do
    let _ ← get_effectiveness_dual_type opp_move.type party_member.types
    (.error "AttributeError" : Except String ℚ)
  else pure acc

/-- One iteration of the damage loop (battle_helper.py lines 455-460):
the dual-type lookup followed by the raising `.value` access. -/
def damage_fold_step (opponent : Pokemon) (_acc : ℚ) (m : Move) :
    Except String ℚ := do
  let _ ← get_effectiveness_dual_type m.type opponent.types
  (.error "AttributeError" : Except String ℚ)

/-- The per-candidate scoring body of `should_switch_pokemon`
(battle_helper.py lines 445-462).  Both loops call
`get_effectiveness_dual_type` and then `float(effectiveness.value)`
(lines 452 and 460) — `.value` on a float raises `AttributeError`, so any
iteration that is entered fails; the loops complete only when they have
nothing to iterate over, leaving both scores 0. -/
def score_party_member (opponent party_member : Pokemon) : Except String ℚ := do
  let resistance_score ← opponent.moves.foldlM (resistance_fold_step party_member) 0
  let damage_score ←
    party_member.get_available_moves.foldlM (damage_fold_step opponent) 0
  pure (damage_score - resistance_score)

/-- The dictionary returned by `should_switch_pokemon` (battle_helper.py
lines 471-475).  The source interpolates the two scores into the positive
reason with `%.2f` formatting; the reason is modelled without the numeric
suffix, which no claim inspects. -/
structure SwitchResult where
  should_switch : Bool
  recommended_pokemon : Option Pokemon
  reason : String
deriving DecidableEq, Repr

/-- One iteration of the `for party_member in available_party` loop of
`should_switch_pokemon` (battle_helper.py lines 441-466): skip the
current or fainted member, otherwise score it and keep it when it beats
the best score so far.  `party_member == current_pokemon` is Python
object identity (the class defines no `__eq__`), modelled by structural
equality over `Pokemon` including its `ref` field. -/
def switch_fold_step (current_pokemon opponent_pokemon : Pokemon)
    (acc : ℚ × Option Pokemon) (party_member : Pokemon) :
    Except String (ℚ × Option Pokemon) :=
  if party_member = current_pokemon ∨ party_member.is_fainted then pure acc
  else do
    let total_score ← score_party_member opponent_pokemon party_member
    if total_score > acc.1 then pure (total_score, some party_member) else pure acc

/-- `BattleHelper.should_switch_pokemon` (battle_helper.py lines 412-475).
`can_switch` is `self.battle_state.can_switch`. -/
def should_switch_pokemon (can_switch : Bool) (current_pokemon opponent_pokemon : Pokemon)
    (available_party : List Pokemon) : Except String SwitchResult :=
  if available_party.isEmpty ∨ ¬can_switch then
    .ok ⟨false, none, "Cannot switch or no alternatives available"⟩
  else do
    let current_effectiveness ← get_effectiveness_dual_type
      (match opponent_pokemon.moves with | [] => .NORMAL | m :: _ => m.type)
      current_pokemon.types
    let best ← available_party.foldlM
      (switch_fold_step current_pokemon opponent_pokemon) (-1, none)
    let should : Bool := decide (best.1 > current_effectiveness * (3/2))
    .ok ⟨should, best.2,
      if should then "Alternative has better type matchup"
      else "Current Pokémon has adequate type matchup"⟩

/-- The dictionary returned by `should_use_item` (battle_helper.py
lines 488-525). -/
structure ItemResult where
  should_use_item : Bool
  recommended_item : Option String
  reason : String
deriving DecidableEq, Repr

/-- `BattleHelper.should_use_item` (battle_helper.py lines 477-525).
`can_use_items` is `self.battle_state.can_use_items`.  The health ratio
`pokemon.hp / pokemon.max_hp` raises `ZeroDivisionError` when `max_hp` is
zero.  The status check `if pokemon.status_condition` is Python
truthiness: `None` and the empty string are falsy. -/
def should_use_item (can_use_items : Bool) (pokemon : Pokemon)
    (available_items : List String) : Except String ItemResult :=
  if available_items.isEmpty ∨ ¬can_use_items then
    .ok ⟨false, none, "No items available or cannot use items"⟩
  else if pokemon.max_hp = 0 then .error "ZeroDivisionError"
  else
    let health_percentage : ℚ := (pokemon.hp : ℚ) / (pokemon.max_hp : ℚ)
    if health_percentage > 8/10 then
      .ok ⟨false, none, "Pokémon is healthy enough"⟩
    else if health_percentage < 3/10 ∧ "Potion" ∈ available_items then
      .ok ⟨true, some "Potion", "Pokémon HP is critically low"⟩
    else
      match pokemon.status_condition with
      | some s =>
          if s ≠ "" ∧ "Full Restore" ∈ available_items then
            .ok ⟨true, some "Full Restore", "Pokémon has " ++ s ++ " status"⟩
          else .ok ⟨false, none, "No critical need for items"⟩
      | none => .ok ⟨false, none, "No critical need for items"⟩

/-- The decision dictionary built by `get_battle_decision`
(battle_helper.py lines 537-543). -/
structure Decision where
  action_type : String
  move : Option Move
  switch : Option Pokemon
  item : Option String
  reasoning : List String
deriving DecidableEq, Repr

/-- `get_battle_decision` returns either the error-shaped dictionary
`{"error": ...}` or a decision dictionary. -/
inductive BattleDecisionOut where
  | err (msg : String)
  | dec (d : Decision)
deriving DecidableEq, Repr

/-- `BattleHelper.get_battle_decision` (battle_helper.py lines 527-580).
The method only reads `self.battle_state`; the returned pair carries the
(unchanged) state to make that explicit.  `if not self.battle_state.player_pokemon`
is Python truthiness: a `Pokemon` object is always truthy, so the guard
fires exactly when a slot is `None`. -/
def get_battle_decision (env : PyEnv) (bs : BattleState) :
    Except String (BattleDecisionOut × BattleState) :=
  match bs.player_pokemon, bs.opponent_pokemon with
  | some player, some opponent => do
      let item_decision ← should_use_item bs.can_use_items player bs.player_items
      if item_decision.should_use_item then
        .ok (.dec ⟨"use_item", none, none, item_decision.recommended_item,
                   [item_decision.reason]⟩, bs)
      else do
        let switch_decision ← should_switch_pokemon bs.can_switch player opponent
          bs.party_pokemon
        if switch_decision.should_switch then
          .ok (.dec ⟨"switch", none, switch_decision.recommended_pokemon, none,
                     [switch_decision.reason]⟩, bs)
        else do
          let move_decision ← suggest_move env player opponent none
          .ok (.dec ⟨"move", move_decision.move, none, none,
                     [move_decision.reason]⟩, bs)
  | _, _ => .ok (.err "Battle state not properly initialized", bs)

/-- The `**kwargs` of `update_battle_state`: the remaining `BattleState`
attributes that pass the `hasattr` check (battle_helper.py lines 594-597).
Keys that are not attributes of `BattleState` are silently ignored by the
source and are therefore not represented. -/
structure BSKwargs where
  player_items : Option (List String)
  party_pokemon : Option (List Pokemon)
  can_switch : Option Bool
  can_use_items : Option Bool
deriving Repr

/-- `BattleHelper.update_battle_state` (battle_helper.py lines 582-597).
The three named parameters are guarded by Python truthiness (`if
player_pokemon:` …): `None` means omitted, a `Pokemon` object is always
truthy, but the empty string is falsy, so `battle_phase=""` is silently
dropped.  The `**kwargs` loop instead calls `setattr` for every supplied
known attribute regardless of the value's truthiness. -/
def update_battle_state (bs : BattleState)
    (player_pokemon opponent_pokemon : Option Pokemon)
    (battle_phase : Option String) (kwargs : BSKwargs) : BattleState :=
  let bs := match player_pokemon with
    | some p => { bs with player_pokemon := some p }
    | none => bs
  let bs := match opponent_pokemon with
    | some p => { bs with opponent_pokemon := some p }
    | none => bs
  let bs := match battle_phase with
    | some s => if s ≠ "" then { bs with battle_phase := s } else bs
    | none => bs
  let bs := match kwargs.player_items with
    | some v => { bs with player_items := v }
    | none => bs
  let bs := match kwargs.party_pokemon with
    | some v => { bs with party_pokemon := v }
    | none => bs
  let bs := match kwargs.can_switch with
    | some v => { bs with can_switch := v }
    | none => bs
  match kwargs.can_use_items with
    | some v => { bs with can_use_items := v }
    | none => bs

/-! ### Flat-data wrapper entry points

The module-level `calculate_damage` and `suggest_move` (battle_helper.py
lines 612-748) take loosely-typed dictionary inputs.  `PyVal` models the
JSON-like values those dictionaries hold (`None`, ints, strings, lists,
dicts). -/

/-- A loosely-typed Python value as received by the wrapper entry points. -/
inductive PyVal where
  | none
  | int (n : ℤ)
  | str (s : String)
  | list (xs : List PyVal)
  | dict (fields : List (String × PyVal))

def PyVal.isDict : PyVal → Bool
  | .dict _ => true
  | _ => false

/-- Dictionary key lookup (`d[k]` / `k in d`).  Python dict keys are
unique, so first-match association lookup is exact. -/
def PyVal.get? : PyVal → String → Option PyVal
  | .dict fields, k => fields.lookup k
  | _, _ => Option.none

/-- Python `str()` formatting as used by the f-string feeding the damage
roll's `hash`; only `hash` (the opaque `PyEnv.strHash`) ever consumes the
result, so the container renderings are crude. -/
def PyVal.format : PyVal → String
  | .none => "None"
  | .int n => toString n
  | .str s => s
  | .list _ => "[list]"
  | .dict _ => "\x7bdict\x7d"

/-- `PokemonType(value)` — parse a type-name string, `ValueError`
(modelled as `none`) on anything else (battle_helper.py lines 22-38). -/
def parse_pokemon_type : String → Option PokemonType
  | "Normal" => some .NORMAL
  | "Fire" => some .FIRE
  | "Water" => some .WATER
  | "Electric" => some .ELECTRIC
  | "Grass" => some .GRASS
  | "Ice" => some .ICE
  | "Fighting" => some .FIGHTING
  | "Poison" => some .POISON
  | "Ground" => some .GROUND
  | "Flying" => some .FLYING
  | "Psychic" => some .PSYCHIC
  | "Bug" => some .BUG
  | "Rock" => some .ROCK
  | "Ghost" => some .GHOST
  | "Dragon" => some .DRAGON
  | _ => Option.none

/-- The wrappers' required creature fields (battle_helper.py line 619). -/
def required_fields : List String :=
  ["species", "level", "types", "hp", "attack", "defense", "special", "speed"]

def has_required (d : PyVal) : Bool :=
  required_fields.all (fun f => (d.get? f).isSome)

/-- One entry of an input `moves` list (battle_helper.py lines 630-636):
kept only when it is a dict with all five keys and a parseable type
string (otherwise the `continue` / inner `except` skips it).  A non-int
`power`/`pp` would only blow up later inside the guarded `try`, producing
the same wrapper output as skipping the move, and is modelled as a skip;
the stored category only ever feeds `==` comparisons against the three
category strings, so a non-string category (never equal to any of them)
is modelled as `""`. -/
def parse_move_record (m : PyVal) : Option Move :=
  if ¬(["name", "type", "category", "power", "pp"].all fun k => (m.get? k).isSome)
  then Option.none
  else
    match m.get? "type" with
    | some (.str ts) =>
        match parse_pokemon_type ts with
        | some t =>
            match m.get? "power", m.get? "pp" with
            | some (.int pw), some (.int pp) =>
                some ⟨((m.get? "name").getD .none).format, t,
                      (match m.get? "category" with
                       | some (.str c) => c
                       | _ => ""), pw, pp, pp, 100⟩
            | _, _ => Option.none
        | Option.none => Option.none
    | _ => Option.none

/-- The `moves` field of a creature dict (`attacker.get('moves', [])`,
battle_helper.py line 630): absent means `[]`; iterating a string or a
dict yields characters / string keys, none of which are dicts, so every
entry is skipped; iterating any other non-list raises `TypeError`. -/
def parse_moves_field : Option PyVal → Except String (List Move)
  | Option.none => .ok []
  | some (.list xs) => .ok (xs.filterMap parse_move_record)
  | some (.str _) => .ok []
  | some (.dict _) => .ok []
  | some _ => .error "TypeError"

/-- The `types` field conversion (battle_helper.py lines 648-656):
`[PokemonType(t) for t in value]` with `except (ValueError, TypeError)`
falling back to `[NORMAL]`.  Iterating a string yields single-character
strings (never valid type names) and iterating a dict yields its keys;
an empty iterable yields `[]` without any exception. -/
def parse_types_field : Option PyVal → List PokemonType
  | some (.list ts) =>
      match ts.mapM (fun t => match t with
        | .str s => parse_pokemon_type s
        | _ => Option.none) with
      | some l => l
      | Option.none => [.NORMAL]
  | some (.str s) => if s = "" then [] else [.NORMAL]
  | some (.dict fields) =>
      match fields.mapM (fun kv => parse_pokemon_type kv.1) with
      | some l => l
      | Option.none => [.NORMAL]
  | _ => [.NORMAL]

/-- A stat field must be a Python number; any other shape raises
`TypeError` in the float arithmetic of `calculate_damage` inside the
guarded `try`, which the wrappers' handlers turn into the neutral result
either way, so the error is surfaced at extraction. -/
def PyVal.asInt : PyVal → Except String ℤ
  | .int n => .ok n
  | _ => .error "TypeError"

/-- Creature construction shared by both wrappers (battle_helper.py
lines 628-668 and 693-733): parse the moves list, convert the types with
the `[NORMAL]` fallback, and build the `Pokemon` (whose constructor sets
`max_hp = hp`).  The wrapper-built object's identity is irrelevant (the
wrappers never reach the identity comparison), so `ref` is 0. -/
def build_pokemon_from_dict (d : PyVal) : Except String Pokemon := do
  let moves ← parse_moves_field (d.get? "moves")
  let types := parse_types_field (d.get? "types")
  let level ← ((d.get? "level").getD .none).asInt
  let hp ← ((d.get? "hp").getD .none).asInt
  let attack ← ((d.get? "attack").getD .none).asInt
  let defense ← ((d.get? "defense").getD .none).asInt
  let special ← ((d.get? "special").getD .none).asInt
  let speed ← ((d.get? "speed").getD .none).asInt
  pure ⟨0, ((d.get? "species").getD .none).format, level, types,
        hp, hp, attack, defense, special, speed, moves, none⟩

/-- The body of the module-level `calculate_damage`'s `try` block
(battle_helper.py lines 627-676).  The single `except Exception` handler
makes the particular exception and its ordering unobservable: every error
becomes the wrapper's 0.  An unparseable `move['type']` raises
`ValueError` inside the inner `try`, whose handler returns 0 directly. -/
def calculate_damage_wrapper_body (env : PyEnv)
    (attacker defender move : PyVal) : Except String ℤ := do
  let attacker_pokemon ← build_pokemon_from_dict attacker
  let defender_pokemon ← build_pokemon_from_dict defender
  match (move.get? "type").getD .none with
  | .str ts =>
      match parse_pokemon_type ts with
      | some t => do
          let pw ← match move.get? "power" with
            | Option.none => .ok 0
            | some (.int n) => .ok n
            | some _ => .error "TypeError"
          let pp ← match move.get? "pp" with
            | Option.none => .ok 0
            | some (.int n) => .ok n
            | some _ => .error "TypeError"
          calculate_damage env attacker_pokemon defender_pokemon
            ⟨((move.get? "name").getD .none).format, t,
             (match move.get? "category" with
              | some (.str c) => c
              | _ => ""), pw, pp, pp, 100⟩
      | Option.none => .ok 0
  | _ => .ok 0

/-- Module-level `calculate_damage(attacker, defender, move)` wrapper
(battle_helper.py lines 612-678): type validation, required-field
validation, then the `try` body with `except Exception: return 0`. -/
def calculate_damage_wrapper (env : PyEnv)
    (attacker defender move : PyVal) : Except String ℤ :=
  if ¬(attacker.isDict ∧ defender.isDict ∧ move.isDict) then .ok 0
  else if ¬(has_required attacker ∧ has_required defender) then .ok 0
  else if ¬(["name", "type", "category"].all fun k => (move.get? k).isSome) then .ok 0
  else
    match calculate_damage_wrapper_body env attacker defender move with
    | .error _ => .ok 0
    | .ok n => .ok n

/-- The body of the module-level `suggest_move`'s `try` block
(battle_helper.py lines 692-746).  `if available_moves and
isinstance(available_moves, list)` keeps the candidate list only when it
is a non-empty Python list; everything else leaves it `None`. -/
def suggest_move_wrapper_body (env : PyEnv)
    (attacker defender available_moves : PyVal) : Except String SuggestResult := do
  let attacker_pokemon ← build_pokemon_from_dict attacker
  let defender_pokemon ← build_pokemon_from_dict defender
  let avail : Option (List Move) :=
    match available_moves with
    | .list (x :: xs) => some ((x :: xs).filterMap parse_move_record)
    | _ => Option.none
  suggest_move env attacker_pokemon defender_pokemon avail

/-- Module-level `suggest_move(attacker, defender, available_moves)`
wrapper (battle_helper.py lines 680-748): shape validation, the
first-missing-required-field check, then the `try` body whose
`except Exception as e` handler returns the neutral result with the
exception text appended to the reason. -/
def suggest_move_wrapper (env : PyEnv)
    (attacker defender available_moves : PyVal) : Except String SuggestResult :=
  if ¬(attacker.isDict ∧ defender.isDict) then
    .ok ⟨none, "Invalid input types", 0, 1⟩
  else
    match required_fields.find?
        (fun f => (attacker.get? f).isNone || (defender.get? f).isNone) with
    | some f => .ok ⟨none, "Missing required field: " ++ f, 0, 1⟩
    | Option.none =>
        match suggest_move_wrapper_body env attacker defender available_moves with
        | .error e => .ok ⟨none, "Error processing move suggestion: " ++ e, 0, 1⟩
        | .ok r => .ok r

/-! ### Concrete inputs

Example moves, creatures and states, taken from the repository's own test
fixtures (`tests/test_battle_helper.py`, `test_battle_helper_manual.py`),
used as witnesses and counterexample inputs. -/

def moveThunderbolt : Move := ⟨"Thunderbolt", .ELECTRIC, "Special", 95, 15, 15, 100⟩

/-- Thunderbolt with its PP exhausted. -/
def moveThunderboltNoPP : Move := ⟨"Thunderbolt", .ELECTRIC, "Special", 95, 0, 15, 100⟩

def moveSplash : Move := ⟨"Splash", .WATER, "Status", 0, 40, 40, 100⟩

def moveTackle : Move := ⟨"Tackle", .NORMAL, "Physical", 35, 35, 35, 100⟩

def pokPikachu : Pokemon :=
  ⟨1, "Pikachu", 25, [.ELECTRIC], 80, 80, 55, 40, 50, 90, [moveThunderbolt], none⟩

def pokGyarados : Pokemon :=
  ⟨2, "Gyarados", 30, [.WATER, .FLYING], 120, 120, 125, 79, 100, 81, [moveSplash], none⟩

def pokGeodude : Pokemon :=
  ⟨3, "Geodude", 25, [.ROCK, .GROUND], 80, 80, 80, 100, 30, 20, [moveTackle], none⟩

def pokSquirtle : Pokemon :=
  ⟨4, "Squirtle", 10, [.WATER], 44, 44, 48, 65, 50, 43, [], none⟩

/-- A benign bench member with no moves (so the scoring loops have nothing
to iterate over and no exception is raised). -/
def pokDitto : Pokemon :=
  ⟨5, "Ditto", 20, [.NORMAL], 50, 50, 48, 48, 48, 48, [], none⟩

/-- An environment in which `_check_critical_hit` is true (the hash of the
battle-state string is divisible by 16). -/
def envCrit : PyEnv := ⟨fun _ => 0, 0⟩

/-- An environment (a battle-state object at a different address) in which
`_check_critical_hit` is false. -/
def envNoCrit : PyEnv := ⟨fun _ => 0, 1⟩

/-- A third environment with the same string hash and the same (false)
critical-hit outcome as `envNoCrit`. -/
def envNoCrit17 : PyEnv := ⟨fun _ => 0, 17⟩

/-- An initialised battle state: Pikachu versus Geodude, no items, no
bench. -/
def bsInit : BattleState :=
  ⟨some pokPikachu, some pokGeodude, "PlayerTurn", [], [], true, true⟩

/-- A battle state whose player slot was never set. -/
def bsUninit : BattleState :=
  ⟨none, some pokGeodude, "PlayerTurn", [], [], true, true⟩

/-- `update_battle_state` called with no `**kwargs`. -/
def kwNone : BSKwargs := ⟨none, none, none, none⟩

/-- Pikachu as the dictionary the flat-data wrappers receive. -/
def pvPikachu : PyVal := .dict
  [("species", .str "Pikachu"), ("level", .int 25),
   ("types", .list [.str "Electric"]), ("hp", .int 80), ("attack", .int 55),
   ("defense", .int 40), ("special", .int 50), ("speed", .int 90),
   ("moves", .list [.dict
     [("name", .str "Thunderbolt"), ("type", .str "Electric"),
      ("category", .str "Special"), ("power", .int 95), ("pp", .int 15)]])]

/-- Squirtle as a wrapper dictionary (no moves key). -/
def pvSquirtle : PyVal := .dict
  [("species", .str "Squirtle"), ("level", .int 10),
   ("types", .list [.str "Water"]), ("hp", .int 44), ("attack", .int 48),
   ("defense", .int 65), ("special", .int 50), ("speed", .int 43)]

/-- A move dictionary whose `type` is not a parseable type name. -/
def pvBadTypeMove : PyVal := .dict
  [("name", .str "Screech"), ("type", .str "Sound"), ("category", .str "Special")]

/-! ### Helper lemmas -/

instance {e a : Type} [DecidableEq e] [DecidableEq a] : DecidableEq (Except e a) :=
  fun x y =>
    match x, y with
    | .error u, .error v =>
        if h : u = v then .isTrue (h ▸ rfl)
        else .isFalse (fun hc => h (Except.error.inj hc))
    | .ok u, .ok v =>
        if h : u = v then .isTrue (h ▸ rfl)
        else .isFalse (fun hc => h (Except.ok.inj hc))
    | .error _, .ok _ => .isFalse (fun hc => Except.noConfusion hc)
    | .ok _, .error _ => .isFalse (fun hc => Except.noConfusion hc)

/-- The final clamp of `calculate_damage`: when effectiveness is positive,
the returned integer is at least 1. -/
lemma one_le_clamp (q : ℚ) (F : ℤ) (hq : 0 < q) :
    1 ≤ if q > 0 ∧ F < 1 then 1 else F := by
  split
  · omega
  · rename_i h
    rcases not_and_or.mp h with hc | hc
    · exact absurd hq hc
    · omega

@[simp] lemma error_bind {α β : Type} (e : String) (f : α → Except String β) :
    (Except.error e : Except String α) >>= f = .error e := rfl

@[simp] lemma ok_bind {α β : Type} (a : α) (f : α → Except String β) :
    (Except.ok a : Except String α) >>= f = f a := rfl

@[simp] lemma ok_map {α β : Type} (f : α → β) (a : α) :
    f <$> (Except.ok a : Except String α) = .ok (f a) := rfl

@[simp] lemma error_map {α β : Type} (f : α → β) (e : String) :
    f <$> (Except.error e : Except String α) = .error e := rfl

lemma value_nonneg (e : TypeEffectiveness) : 0 ≤ e.value := by
  cases e <;> norm_num [TypeEffectiveness.value]

lemma effDual_ok_nonneg {t : PokemonType} {ds : List PokemonType} {q : ℚ}
    (h : get_effectiveness_dual_type t ds = .ok q) : 0 ≤ q := by
  match ds with
  | [] => simp [get_effectiveness_dual_type] at h
  | [d] =>
      simp only [get_effectiveness_dual_type, Except.ok.injEq] at h
      exact h ▸ value_nonneg _
  | d1 :: d2 :: rest =>
      simp only [get_effectiveness_dual_type, Except.ok.injEq] at h
      exact h ▸ mul_nonneg (value_nonneg _) (value_nonneg _)

/-- A fold in the `Except` monad whose every step either keeps the
accumulator or raises can only return the accumulator it started from. -/
lemma foldlM_keeps_acc {α β : Type} (f : β → α → Except String β) :
    ∀ (l : List α) (acc q : β),
      (∀ b a, a ∈ l → f b a = pure b ∨ ∃ e, f b a = .error e) →
      l.foldlM f acc = .ok q → q = acc := by
  intro l
  induction l with
  | nil =>
      intro acc q _ h
      simp only [List.foldlM_nil] at h
      exact (Except.ok.inj h).symm
  | cons a tl ih =>
      intro acc q hstep h
      rw [List.foldlM_cons] at h
      rcases hstep acc a (List.mem_cons_self a tl) with h1 | ⟨e, h1⟩
      · rw [h1] at h
        simp only [pure_bind] at h
        exact ih acc q (fun b x hx => hstep b x (List.mem_cons_of_mem a hx)) h
      · rw [h1] at h
        simp at h

lemma resistance_step_keeps_or_raises (p : Pokemon) (acc : ℚ) (m : Move) :
    resistance_fold_step p acc m = pure acc ∨
      ∃ e, resistance_fold_step p acc m = .error e := by
  unfold resistance_fold_step
  by_cases hp : m.power > 0
  · rcases he : get_effectiveness_dual_type m.type p.types with e | q
    · exact Or.inr ⟨e, by simp [hp, he]⟩
    · exact Or.inr ⟨"AttributeError", by simp [hp, he]⟩
  · exact Or.inl (by simp [hp])

lemma damage_step_raises (opp : Pokemon) (acc : ℚ) (m : Move) :
    ∃ e, damage_fold_step opp acc m = .error e := by
  unfold damage_fold_step
  rcases he : get_effectiveness_dual_type m.type opp.types with e | q
  · exact ⟨e, by simp [he]⟩
  · exact ⟨"AttributeError", by simp [he]⟩

/-- Whenever `score_party_member` returns at all, both of its loops had
nothing to score and the total is `0 - 0 = 0`. -/
lemma score_party_member_eq_zero {opp p : Pokemon} {t : ℚ}
    (h : score_party_member opp p = .ok t) : t = 0 := by
  unfold score_party_member at h
  rcases h1 : opp.moves.foldlM (resistance_fold_step p) 0 with e | r
  · rw [h1] at h; simp at h
  · rw [h1] at h
    simp only [ok_bind] at h
    have hr : r = 0 :=
      foldlM_keeps_acc _ _ _ _
        (fun b a _ => resistance_step_keeps_or_raises p b a) h1
    rcases h2 : p.get_available_moves.foldlM (damage_fold_step opp) 0 with e | d
    · rw [h2] at h; simp at h
    · rw [h2] at h
      simp only [ok_bind] at h
      have hd : d = 0 :=
        foldlM_keeps_acc _ _ _ _
          (fun b a _ => Or.inr (damage_step_raises opp b a)) h2
      subst hr hd
      have h3 := Except.ok.inj h
      simpa using h3.symm

@[simp] lemma pureE_bind {α β : Type} (a : α) (f : α → Except String β) :
    (pure a : Except String α) >>= f = f a := rfl

/-- Invariant of the candidate loop of `should_switch_pokemon`: a
completed fold either still carries its initial accumulator or holds a
live, non-current member of the party with (the only reachable) score 0. -/
lemma switch_foldlM_ok (cur opp : Pokemon) :
    ∀ (party : List Pokemon) (acc res : ℚ × Option Pokemon),
      party.foldlM (switch_fold_step cur opp) acc = .ok res →
      res = acc ∨
        ∃ p, p ∈ party ∧ res.2 = some p ∧ p.is_fainted = false ∧ p ≠ cur ∧
          res.1 = 0 := by
  intro party
  induction party with
  | nil =>
      intro acc res h
      rw [List.foldlM_nil] at h
      exact Or.inl (Except.ok.inj h).symm
  | cons p tl ih =>
      intro acc res h
      rw [List.foldlM_cons] at h
      unfold switch_fold_step at h
      by_cases hskip : p = cur ∨ p.is_fainted
      · rw [if_pos hskip] at h
        simp only [pureE_bind] at h
        rcases ih acc res h with hl | ⟨q, hq, h2, h3, h4, h5⟩
        · exact Or.inl hl
        · exact Or.inr ⟨q, List.mem_cons_of_mem p hq, h2, h3, h4, h5⟩
      · rw [if_neg hskip] at h
        have hne : p ≠ cur := fun hc => hskip (Or.inl hc)
        have hnf : p.is_fainted = false := by
          by_contra hcon
          exact hskip (Or.inr (by simpa using hcon))
        rcases hs : score_party_member opp p with e | tt
        · rw [hs] at h
          simp at h
        · rw [hs] at h
          have ht0 : tt = 0 := score_party_member_eq_zero hs
          simp only [ok_bind] at h
          by_cases hgt : tt > acc.1
          · rw [if_pos hgt] at h
            simp only [pureE_bind] at h
            rcases ih _ res h with hl | ⟨q, hq, h2, h3, h4, h5⟩
            · refine Or.inr ⟨p, List.mem_cons_self p tl, ?_, hnf, hne, ?_⟩
              · rw [hl]
              · rw [hl]; exact ht0
            · exact Or.inr ⟨q, List.mem_cons_of_mem p hq, h2, h3, h4, h5⟩
          · rw [if_neg hgt] at h
            simp only [pureE_bind] at h
            rcases ih acc res h with hl | ⟨q, hq, h2, h3, h4, h5⟩
            · exact Or.inl hl
            · exact Or.inr ⟨q, List.mem_cons_of_mem p hq, h2, h3, h4, h5⟩

/-! ### Claim theorems -/

/-- C1: the claim says `suggest_move` returns `move = none` iff the
candidate set is empty of usable moves.  On the repository's own test
fixture (Pikachu with a usable Thunderbolt versus Gyarados, candidate
list omitted) the candidate set is non-empty, yet the call does not
return a result at all: `_evaluate_move` raises `AttributeError` by
taking `.value` on the float returned by the dual-type lookup, so the
iff fails in the only direction that selects a move. -/
theorem C1_suggest_move_raises_on_usable_moves :
    pokPikachu.get_available_moves ≠ [] ∧
    suggest_move envNoCrit pokPikachu pokGyarados none = .error "AttributeError" := by
  constructor
  · decide
  · simp [suggest_move, pokPikachu, pokGyarados, moveThunderbolt,
      Pokemon.get_available_moves, Move.has_pp, evaluate_move,
      List.foldlM_cons, List.foldlM_nil,
      show get_effectiveness_dual_type .ELECTRIC [.WATER, .FLYING] = .ok 4 from by
        simp [get_effectiveness_dual_type,
          show get_effectiveness .ELECTRIC .WATER = .SUPER_EFFECTIVE from rfl,
          show get_effectiveness .ELECTRIC .FLYING = .SUPER_EFFECTIVE from rfl,
          TypeEffectiveness.value]
        norm_num]

/-- C2 counterexample: the claim asserts
`effectivenessDual(t, [a, a]) = effectiveness(t, a)`, but on a two-element
list the code multiplies the two lookups, so for Fire against
`[Water, Water]` it returns `0.5 × 0.5 = 0.25`, not `0.5`. -/
theorem C2_repeated_defense_type_squares :
    get_effectiveness_dual_type .FIRE [.WATER, .WATER] = .ok (1/4) ∧
    (get_effectiveness .FIRE .WATER).value = 1/2 ∧
    get_effectiveness_dual_type .FIRE [.WATER, .WATER] ≠
      .ok ((get_effectiveness .FIRE .WATER).value) := by
  refine ⟨?_, ?_, ?_⟩ <;>
    simp [get_effectiveness_dual_type,
      show get_effectiveness .FIRE .WATER = .NOT_VERY_EFFECTIVE from rfl,
      TypeEffectiveness.value] <;>
    norm_num

/-- C2 (amended): for defense-type lists of length one or two,
`get_effectiveness_dual_type` equals the product of the single-type
lookups of the listed types — hence `[a]` (the code's representation of a
single-typed defender) gives `effectiveness(t, a)`, while `[a, a]` gives
its square. -/
theorem C2_dual_is_product_of_listed :
    ∀ (t : PokemonType) (ds : List PokemonType), ds.length = 1 ∨ ds.length = 2 →
      get_effectiveness_dual_type t ds =
        .ok ((ds.map fun d => (get_effectiveness t d).value).prod) := by
  intro t ds h
  match ds with
  | [] => simp at h
  | [a] => simp [get_effectiveness_dual_type]
  | [a, b] => simp [get_effectiveness_dual_type]
  | a :: b :: c :: rest => rcases h with h | h <;> simp at h

/-- Witness for C2: the product form evaluated on a concrete length-two
list. -/
theorem C2_dual_product_witness :
    get_effectiveness_dual_type .ELECTRIC [.WATER, .FLYING] =
      .ok (([.WATER, .FLYING].map
        fun d => (get_effectiveness .ELECTRIC d).value).prod) :=
  C2_dual_is_product_of_listed .ELECTRIC [.WATER, .FLYING] (Or.inr rfl)

/-- C3 counterexample: the claim asserts damage ≥ 1 whenever
effectiveness > 0 and power > 0, but a move with zero remaining PP
returns 0 at the PP gate regardless of effectiveness and power. -/
theorem C3_zero_pp_gives_zero_damage :
    get_effectiveness_dual_type moveThunderboltNoPP.type pokSquirtle.types = .ok 2 ∧
    moveThunderboltNoPP.power > 0 ∧
    calculate_damage envNoCrit pokPikachu pokSquirtle moveThunderboltNoPP = .ok 0 := by
  refine ⟨rfl, by decide, ?_⟩
  simp [calculate_damage, show moveThunderboltNoPP.has_pp = false from rfl]

/-- C3 (amended): damage is at least 1 whenever effectiveness > 0 and
power > 0, provided additionally that the move has remaining PP, its
category is Physical or Special, and the defense stat the category
selects is non-zero (otherwise the code returns 0 early or raises
`ZeroDivisionError`). -/
theorem C3_damage_at_least_one :
    ∀ (env : PyEnv) (attacker defender : Pokemon) (move : Move) (q : ℚ),
      get_effectiveness_dual_type move.type defender.types = .ok q → 0 < q →
      0 < move.power → 0 < move.pp →
      (move.is_physical = true → defender.defense ≠ 0) →
      (move.is_special = true → defender.special ≠ 0) →
      (move.is_physical = true ∨ move.is_special = true) →
      ∃ n, calculate_damage env attacker defender move = .ok n ∧ 1 ≤ n := by
  intro env a d m q heff hq hpw hpp hdef hspec hcat
  unfold calculate_damage
  have hhp : m.has_pp = true := by simp [Move.has_pp]; exact hpp
  rw [if_neg (by simp [hhp])]
  rcases hcat with hphys | hspec2
  · have hd0 : ((d.defense : ℚ)) ≠ 0 := by simpa using hdef hphys
    simp only [hphys, if_true, heff, ok_bind]
    rw [if_neg hd0]
    exact ⟨_, rfl, one_le_clamp q _ hq⟩
  · have hcx : m.category = "Special" := by
      simpa [Move.is_special] using hspec2
    have hnp : m.is_physical = false := by simp [Move.is_physical, hcx]
    have hd0 : ((d.special : ℚ)) ≠ 0 := by simpa using hspec hspec2
    simp only [hnp, hspec2, if_true, Bool.false_eq_true, if_false, heff, ok_bind]
    rw [if_neg hd0]
    exact ⟨_, rfl, one_le_clamp q _ hq⟩

/-- Witness for C3: Thunderbolt with PP against Squirtle deals at least 1
damage. -/
theorem C3_damage_witness :
    ∃ n, calculate_damage envNoCrit pokPikachu pokSquirtle moveThunderbolt = .ok n ∧
      1 ≤ n :=
  C3_damage_at_least_one envNoCrit pokPikachu pokSquirtle moveThunderbolt 2
    rfl (by norm_num) (by decide) (by decide)
    (fun h => absurd h (by simp [moveThunderbolt, Move.is_physical]))
    (fun _ => by decide) (Or.inr rfl)

/-- C4 counterexample: with the same attacker, defender and move, two
environments that differ only in the battle-state object read by
`_check_critical_hit` (a different `hash(str(self.battle_state))`)
produce different damage, so `calculate_damage` is not a pure function of
its three arguments. -/
theorem C4_critical_env_changes_damage :
    calculate_damage envCrit pokPikachu pokSquirtle moveThunderbolt = .ok 126 ∧
    calculate_damage envNoCrit pokPikachu pokSquirtle moveThunderbolt = .ok 63 ∧
    (126 : ℤ) ≠ 63 := by
  refine ⟨?_, ?_, by decide⟩ <;>
  · simp [calculate_damage, envCrit, envNoCrit, pokPikachu, pokSquirtle,
      moveThunderbolt, Move.has_pp, Move.is_physical, Move.is_special,
      calculate_stab,
      show get_effectiveness_dual_type .ELECTRIC [.WATER] = .ok 2 from rfl,
      check_critical_hit, pyint]
    norm_num

/-- C4 (amended): `calculate_damage` is deterministic given the ambient
environment — two calls with equal attacker, defender and move return the
same integer whenever the string hash of the species/name concatenation
and the critical-hit check agree; beyond its three arguments the result
depends on exactly those two environment reads. -/
theorem C4_deterministic_given_env :
    ∀ (e1 e2 : PyEnv) (attacker defender : Pokemon) (move : Move),
      e1.strHash (attacker.species ++ defender.species ++ move.name) =
        e2.strHash (attacker.species ++ defender.species ++ move.name) →
      check_critical_hit e1 = check_critical_hit e2 →
      calculate_damage e1 attacker defender move =
        calculate_damage e2 attacker defender move := by
  intro e1 e2 a d m h1 h2
  unfold calculate_damage
  simp only [h1, h2]

/-- Witness for C4: two distinct environments that agree on both reads
give equal damage. -/
theorem C4_deterministic_witness :
    calculate_damage envNoCrit pokPikachu pokSquirtle moveThunderbolt =
      calculate_damage envNoCrit17 pokPikachu pokSquirtle moveThunderbolt :=
  C4_deterministic_given_env envNoCrit envNoCrit17 pokPikachu pokSquirtle
    moveThunderbolt rfl (by decide)

/-- C5: whenever `should_switch_pokemon` returns a result at all, the
recommended creature is never fainted and never the currently-active
creature — the candidate loop skips both before scoring. -/
theorem C5_switch_target_live_and_distinct :
    ∀ (can_switch : Bool) (cur opp : Pokemon) (party : List Pokemon)
      (r : SwitchResult),
      should_switch_pokemon can_switch cur opp party = .ok r →
      ∀ p, r.recommended_pokemon = some p → p.is_fainted = false ∧ p ≠ cur := by
  intro cs cur opp party r h p hp
  unfold should_switch_pokemon at h
  by_cases hempty : party.isEmpty ∨ ¬cs
  · rw [if_pos hempty] at h
    rw [← Except.ok.inj h] at hp
    simp at hp
  · rw [if_neg hempty] at h
    rcases hce : get_effectiveness_dual_type
        (match opp.moves with | [] => .NORMAL | m :: _ => m.type) cur.types
      with e | ce
    · rw [hce] at h; simp at h
    · rw [hce] at h
      simp only [ok_bind] at h
      rcases hf : party.foldlM (switch_fold_step cur opp) (-1, none) with e | best
      · rw [hf] at h; simp at h
      · rw [hf] at h
        simp only [ok_bind] at h
        rw [← Except.ok.inj h] at hp
        simp only at hp
        rcases switch_foldlM_ok cur opp party _ _ hf with hacc | ⟨q, _, hq2, hq3, hq4, _⟩
        · rw [hacc] at hp; simp at hp
        · rw [hq2] at hp
          rcases Option.some.inj hp with rfl
          exact ⟨hq3, hq4⟩

/-- Witness for C5: a completed call (status-only opponent, moveless
bench member) whose recommendation is the live, distinct bench member. -/
theorem C5_switch_witness :
    pokDitto.is_fainted = false ∧ pokDitto ≠ pokPikachu :=
  C5_switch_target_live_and_distinct true pokPikachu pokGyarados [pokDitto]
    ⟨false, some pokDitto, "Current Pokémon has adequate type matchup"⟩
    (by
      simp [should_switch_pokemon, switch_fold_step, score_party_member,
        resistance_fold_step, damage_fold_step, pokDitto, pokPikachu,
        pokGyarados, moveSplash, Pokemon.get_available_moves, Move.has_pp,
        Pokemon.is_fainted, List.foldlM_cons, List.foldlM_nil,
        get_effectiveness_dual_type,
        show get_effectiveness .WATER .ELECTRIC = .NEUTRAL from rfl,
        TypeEffectiveness.value]
      norm_num)
    pokDitto rfl

/-- C10: a positive switch recommendation never carries a null payload —
whenever `should_switch_pokemon` returns with `should_switch = true`, the
recommended creature is a live, non-active member of the scored bench
(stated contrapositively as a disjunction; on every run that returns at
all the threshold comparison in fact comes out false). -/
theorem C10_positive_switch_has_target :
    ∀ (can_switch : Bool) (cur opp : Pokemon) (party : List Pokemon)
      (r : SwitchResult),
      should_switch_pokemon can_switch cur opp party = .ok r →
      r.should_switch = false ∨
        ∃ p, r.recommended_pokemon = some p ∧ p ∈ party ∧
          p.is_fainted = false ∧ p ≠ cur := by
  intro cs cur opp party r h
  unfold should_switch_pokemon at h
  by_cases hempty : party.isEmpty ∨ ¬cs
  · rw [if_pos hempty] at h
    rw [← Except.ok.inj h]
    exact Or.inl rfl
  · rw [if_neg hempty] at h
    rcases hce : get_effectiveness_dual_type
        (match opp.moves with | [] => .NORMAL | m :: _ => m.type) cur.types
      with e | ce
    · rw [hce] at h; simp at h
    · rw [hce] at h
      simp only [ok_bind] at h
      rcases hf : party.foldlM (switch_fold_step cur opp) (-1, none) with e | best
      · rw [hf] at h; simp at h
      · rw [hf] at h
        simp only [ok_bind] at h
        have hce0 : 0 ≤ ce := effDual_ok_nonneg hce
        have hth : 0 ≤ ce * (3/2) := by positivity
        rcases switch_foldlM_ok cur opp party _ _ hf with hacc | ⟨q, hq1, hq2, hq3, hq4, hq5⟩
        · refine Or.inl ?_
          rw [← Except.ok.inj h]
          simp only
          rw [hacc]
          simp only
          exact decide_eq_false (by norm_num; linarith)
        · refine Or.inl ?_
          rw [← Except.ok.inj h]
          simp only
          rw [hq5]
          exact decide_eq_false (by linarith)

/-- Witness for C10: a completed call with a live, moveless bench member
satisfies the disjunction. -/
theorem C10_positive_switch_witness :
    (⟨false, some pokSquirtle, "Current Pokémon has adequate type matchup"⟩ :
        SwitchResult).should_switch = false ∨
      ∃ p, (⟨false, some pokSquirtle,
          "Current Pokémon has adequate type matchup"⟩ :
            SwitchResult).recommended_pokemon = some p ∧
        p ∈ [pokSquirtle] ∧ p.is_fainted = false ∧ p ≠ pokPikachu :=
  C10_positive_switch_has_target true pokPikachu pokGyarados [pokSquirtle]
    ⟨false, some pokSquirtle, "Current Pokémon has adequate type matchup"⟩
    (by
      simp [should_switch_pokemon, switch_fold_step, score_party_member,
        resistance_fold_step, damage_fold_step, pokSquirtle, pokPikachu,
        pokGyarados, moveSplash, Pokemon.get_available_moves, Move.has_pp,
        Pokemon.is_fainted, List.foldlM_cons, List.foldlM_nil,
        get_effectiveness_dual_type,
        show get_effectiveness .WATER .ELECTRIC = .NEUTRAL from rfl,
        TypeEffectiveness.value]
      norm_num)

/-- C6: on an initialised state whose first two advisors decline
(no items, no bench), the claimed third stage — "the action is move with
the move evaluator's suggestion" — is never reached: the composer
propagates the `AttributeError` that `_evaluate_move` raises on the
player's usable move, instead of returning a move decision. -/
theorem C6_composer_crashes_at_move_stage :
    should_use_item bsInit.can_use_items pokPikachu bsInit.player_items =
      .ok ⟨false, none, "No items available or cannot use items"⟩ ∧
    should_switch_pokemon bsInit.can_switch pokPikachu pokGeodude
        bsInit.party_pokemon =
      .ok ⟨false, none, "Cannot switch or no alternatives available"⟩ ∧
    get_battle_decision envNoCrit bsInit = .error "AttributeError" := by
  refine ⟨?_, ?_, ?_⟩
  · simp [should_use_item, bsInit]
  · simp [should_switch_pokemon, bsInit]
  · simp [get_battle_decision, bsInit, should_use_item, should_switch_pokemon,
      suggest_move, evaluate_move, pokPikachu, pokGeodude, moveThunderbolt,
      Pokemon.get_available_moves, Move.has_pp,
      List.foldlM_cons, List.foldlM_nil, get_effectiveness_dual_type]

/-- C7: calling the composer with the player or opponent slot unset
returns the error-shaped dictionary, raises nothing, and leaves the
battle state unchanged. -/
theorem C7_uninitialized_returns_error_shape :
    ∀ (env : PyEnv) (bs : BattleState),
      bs.player_pokemon = none ∨ bs.opponent_pokemon = none →
      get_battle_decision env bs =
        .ok (.err "Battle state not properly initialized", bs) := by
  intro env bs h
  rcases bs with ⟨pp, op, phase, items, party, csw, cui⟩
  rcases pp with _ | p <;> rcases op with _ | o <;> simp_all [get_battle_decision]

/-- Witness for C7: the concrete uninitialised state. -/
theorem C7_uninitialized_witness :
    get_battle_decision envNoCrit bsUninit =
      .ok (.err "Battle state not properly initialized", bsUninit) :=
  C7_uninitialized_returns_error_shape envNoCrit bsUninit (Or.inl rfl)

/-- C9 counterexample: the claim says every explicitly supplied field
overwrites the stored value, but `update_battle_state` guards its named
parameters with Python truthiness, so explicitly supplying the (falsy)
empty string as `battle_phase` leaves the stored phase untouched. -/
theorem C9_empty_phase_not_applied :
    (update_battle_state bsInit none none (some "") kwNone).battle_phase =
      "PlayerTurn" ∧ ("PlayerTurn" : String) ≠ "" := by
  constructor
  · simp [update_battle_state, bsInit, kwNone]
  · decide

/-- C9 (amended): `update_battle_state` is a selective merge — every
omitted field is left untouched, `**kwargs` fields overwrite whenever
supplied, and the named `player_pokemon`/`opponent_pokemon`/`battle_phase`
parameters overwrite when supplied and truthy (a creature object is
always truthy; a supplied empty-string phase is dropped). -/
theorem C9_selective_merge_semantics :
    ∀ (bs : BattleState) (p o : Option Pokemon) (ph : Option String)
      (kw : BSKwargs),
      (update_battle_state bs p o ph kw).player_pokemon =
        (match p with | some q => some q | none => bs.player_pokemon) ∧
      (update_battle_state bs p o ph kw).opponent_pokemon =
        (match o with | some q => some q | none => bs.opponent_pokemon) ∧
      (update_battle_state bs p o ph kw).battle_phase =
        (match ph with
         | some s => if s ≠ "" then s else bs.battle_phase
         | none => bs.battle_phase) ∧
      (update_battle_state bs p o ph kw).player_items =
        kw.player_items.getD bs.player_items ∧
      (update_battle_state bs p o ph kw).party_pokemon =
        kw.party_pokemon.getD bs.party_pokemon ∧
      (update_battle_state bs p o ph kw).can_switch =
        kw.can_switch.getD bs.can_switch ∧
      (update_battle_state bs p o ph kw).can_use_items =
        kw.can_use_items.getD bs.can_use_items := by
  intro bs p o ph kw
  rcases kw with ⟨ki, kp, ks, ku⟩
  rcases p with _ | p <;> rcases o with _ | o <;> rcases ph with _ | ph <;>
    rcases ki with _ | ki <;> rcases kp with _ | kp <;> rcases ks with _ | ks <;>
    rcases ku with _ | ku <;>
    simp_all [update_battle_state] <;>
    split_ifs <;> simp_all

lemma exists_not_of_all_eq_false {l : List String} {p : String → Bool}
    (h : l.all p = false) : ∃ x ∈ l, ¬ p x := by
  by_contra hc
  push_neg at hc
  have hall : l.all p = true := by
    rw [List.all_eq_true]
    intro x hx
    simpa using hc x hx
  simp [hall] at h

/-- C8: the flat-data wrapper entry points fail soft — on every `PyVal`
input (well-formed or not) both wrappers return a value instead of
propagating an exception, and on the claimed malformation classes
(non-dict input, missing required field, unparseable type string) the
result is the neutral one: damage 0, or a result with `move = none`. -/
theorem C8_wrappers_fail_soft :
    ∀ (env : PyEnv) (a d m am : PyVal),
      (∃ n, calculate_damage_wrapper env a d m = .ok n) ∧
      (∃ r, suggest_move_wrapper env a d am = .ok r) ∧
      (¬(a.isDict = true ∧ d.isDict = true ∧ m.isDict = true ∧
          has_required a = true ∧ has_required d = true ∧
          (["name", "type", "category"].all fun k => (m.get? k).isSome) = true) →
        calculate_damage_wrapper env a d m = .ok 0) ∧
      ((match m.get? "type" with
        | some (.str s) => parse_pokemon_type s = Option.none
        | _ => True) →
        calculate_damage_wrapper env a d m = .ok 0) ∧
      ((a.isDict = false ∨ d.isDict = false ∨
          has_required a = false ∨ has_required d = false) →
        ∃ r, suggest_move_wrapper env a d am = .ok r ∧ r.move = none) := by
  intro env a d m am
  refine ⟨?_, ?_, ?_, ?_, ?_⟩
  · unfold calculate_damage_wrapper
    rcases hb : calculate_damage_wrapper_body env a d m with e | n <;>
      split_ifs <;> simp [hb]
  · unfold suggest_move_wrapper
    split_ifs with h1
    · rcases hf : required_fields.find?
          (fun f => (a.get? f).isNone || (d.get? f).isNone) with _ | f
      · rcases hb : suggest_move_wrapper_body env a d am with e | r
        · exact ⟨⟨none, "Error processing move suggestion: " ++ e, 0, 1⟩,
            by simp [hf, hb]⟩
        · exact ⟨r, by simp [hf, hb]⟩
      · exact ⟨⟨none, "Missing required field: " ++ f, 0, 1⟩, by simp [hf]⟩
    · exact ⟨_, rfl⟩
  · intro h
    unfold calculate_damage_wrapper
    split_ifs with h1 h2 h3
    · exact absurd ⟨h1.1, h1.2.1, h1.2.2, h2.1, h2.2, h3⟩ h
    · rfl
    · rfl
    · rfl
  · intro h
    unfold calculate_damage_wrapper
    split_ifs with h1 h2 h3
    · suffices hs : calculate_damage_wrapper_body env a d m = .ok 0 ∨
          ∃ e, calculate_damage_wrapper_body env a d m = .error e by
        rcases hs with hs | ⟨e, hs⟩ <;> simp [hs]
      unfold calculate_damage_wrapper_body
      rcases hba : build_pokemon_from_dict a with e | ap
      · exact Or.inr ⟨e, by simp [hba]⟩
      · rcases hbd : build_pokemon_from_dict d with e | dp
        · exact Or.inr ⟨e, by simp [hba, hbd]⟩
        · rcases hmt : m.get? "type" with _ | v
          · rw [hmt] at h
            exact Or.inl (by simp [hba, hbd, hmt])
          · rcases v with _ | n | s | xs | fs
            · exact Or.inl (by simp [hba, hbd, hmt])
            · exact Or.inl (by simp [hba, hbd, hmt])
            · rw [hmt] at h
              exact Or.inl (by simp [hba, hbd, hmt, h])
            · exact Or.inl (by simp [hba, hbd, hmt])
            · exact Or.inl (by simp [hba, hbd, hmt])
    · rfl
    · rfl
    · rfl
  · intro h
    unfold suggest_move_wrapper
    split_ifs with h1
    · have hmiss : ∃ f ∈ required_fields,
          ((a.get? f).isNone || (d.get? f).isNone) = true := by
        rcases h with hc | hc | hc | hc
        · exact absurd h1.1 (by simp [hc])
        · exact absurd h1.2 (by simp [hc])
        · rcases exists_not_of_all_eq_false hc with ⟨f, hf1, hf2⟩
          exact ⟨f, hf1, by simp_all⟩
        · rcases exists_not_of_all_eq_false hc with ⟨f, hf1, hf2⟩
          exact ⟨f, hf1, by simp_all⟩
      rcases hf : required_fields.find?
          (fun f => (a.get? f).isNone || (d.get? f).isNone) with _ | f
      · exfalso
        rcases hmiss with ⟨f, hf1, hf2⟩
        exact absurd hf2 (by simpa using List.find?_eq_none.mp hf f hf1)
      · exact ⟨⟨none, "Missing required field: " ++ f, 0, 1⟩, by simp [hf], rfl⟩
    · exact ⟨_, rfl, rfl⟩

/-- Witness for C8: a non-dict attacker and an unparseable move type
string both produce the neutral results. -/
theorem C8_wrappers_witness :
    calculate_damage_wrapper envNoCrit (.int 3) pvSquirtle pvBadTypeMove = .ok 0 ∧
    (∃ r, suggest_move_wrapper envNoCrit (.int 3) pvSquirtle .none = .ok r ∧
      r.move = none) ∧
    calculate_damage_wrapper envNoCrit pvPikachu pvSquirtle pvBadTypeMove = .ok 0 := by
  have h1 := C8_wrappers_fail_soft envNoCrit (.int 3) pvSquirtle pvBadTypeMove .none
  have h2 := C8_wrappers_fail_soft envNoCrit pvPikachu pvSquirtle pvBadTypeMove .none
  exact ⟨h1.2.2.1 (by simp [PyVal.isDict]),
         h1.2.2.2.2 (Or.inl rfl),
         h2.2.2.2.1 (show parse_pokemon_type "Sound" = Option.none from rfl)⟩

end BattleHelper
